import Mathlib

/-!
Shallow embedding of the Story Weaver core of the AICompanionRPG repository.

The definitions below are translated from:
  * `src/story-weaver-service.ts` (`StoryWeaverService.decideResponse`,
    `StoryWeaverService.fallbackDecision`),
  * `src/components/SceneDisplayPanel.tsx` (`useConversationManager`:
    `processUserInput`, `executeStoryWeaverDecision`, the per-branch handlers,
    `handlePlayerStopClick`, `stopListening`, `generateExplorationScene`).

Nondeterministic effects (LLM calls, image generation, speech, `Math.random`)
are passed in explicitly as oracle values, so every function is pure and
executable.  JavaScript strings are modelled as Lean `String`s, `undefined`
string fields as `Option String`, and machine numbers as `Nat` (ids and
counters only ever grow by one from zero, so no overflow is reachable in any
statement below).
-/

namespace AICompanionRPG

/-- JS `String.prototype.includes`: substring containment on the char list. -/
def jsIncludes (s pat : String) : Bool :=
  (List.range (s.toList.length + 1)).any
    (fun i => (s.toList.drop i).take pat.toList.length == pat.toList)

/-- JS `String.prototype.toLowerCase` on the ASCII text this program
produces: lowercase each character (Lean's `String.toLower` is defined by
well-founded recursion and does not reduce in the kernel, so the map is
taken over the char list). -/
def jsToLower (s : String) : String := String.mk (s.toList.map Char.toLower)

/-- JS `a || b` for strings: the empty string is falsy. -/
def jsOrStr (a b : String) : String := if a.isEmpty then b else a

/-- JS template interpolation of a possibly-`undefined` string field. -/
def jsInterp (x : Option String) : String := x.getD "undefined"

/-- JS `!x` on an optional string: `undefined` and `""` are falsy. -/
def optFalsy (x : Option String) : Bool :=
  match x with
  | none => true
  | some s => s.isEmpty

/-- JS `[...new Set(l)]`: deduplicate keeping the first occurrence of each
element, preserving order. -/
def jsSetDedup (l : List String) : List String :=
  l.foldl (fun acc x => if x ∈ acc then acc else acc ++ [x]) []

/-- JS `.slice(-5)`: the last five elements (all of them when fewer). -/
def jsSliceLast5 (l : List String) : List String := l.drop (l.length - 5)

/-- The `name` column of `VOICE_OPTIONS` in `src/ai-data.ts`. -/
def VOICE_OPTION_NAMES : List String :=
  ["Zephyr", "Puck", "Charon", "Kore", "Fenrir", "Leda", "Orus", "Aoede",
   "Callirrhoe", "Autonoe", "Enceladus", "Iapetus", "Umbriel", "Algieba",
   "Despina", "Erinome", "Algenib", "Rasalgethi", "Laomedeia", "Achernar",
   "Alnilam", "Schedar", "Gacrux", "Pulcherrima", "Achird", "Zubenelgenubi",
   "Vindemiatrix", "Sadachbia", "Sadaltager", "Sulafat"]

/-- `availableVoiceNames[Math.floor(Math.random() * availableVoiceNames.length)]`
with the random draw injected as a natural number `r` (reduced mod the
catalog size, exactly the range `Math.floor` produces). -/
def pickVoice (r : Nat) : String :=
  VOICE_OPTION_NAMES.getD (r % VOICE_OPTION_NAMES.length) ""

/-- Message sender tags used by the chat log (`'user' | 'companion'`). -/
inductive Sender where
  | user
  | companion
deriving DecidableEq

/-- An entry of `chatHistory` in the conversation manager.  `text` is optional
because JS push sites may store `undefined` (e.g. a missing `responseText`). -/
structure ChatMessage where
  id : Nat
  sender : Sender
  text : Option String
  imageUrl : Option String := none
  isNarrating : Option Bool := none
deriving DecidableEq

/-- The entries of `GameState.chatHistory` built by `buildGameState`
(`{sender, text, imageUrl}`). -/
structure HistoryEntry where
  sender : Sender
  text : Option String
  imageUrl : Option String
deriving DecidableEq

/-- `GameState` from `src/story-weaver-service.ts` (genre is a plain string,
see `GENRES_LIST` in `src/ai-data-types.ts`). -/
structure GameState where
  genre : String
  currentScene : String
  chatHistory : List HistoryEntry
  isCompanionPresent : Bool
  companionName : Option String
  companionDescription : Option String
  worldSetting : String
  recentSceneElements : List String
deriving DecidableEq

/-- `StoryWeaverDecision` from `src/story-weaver-service.ts`.  The
`responseType` is kept as a string since the raw model output may hold an
arbitrary string before validation coerces it. -/
structure StoryWeaverDecision where
  responseType : String
  reasoning : String
  shouldGenerateImage : Bool
  narratorVoice : String
  responseText : Option String := none
  imagePrompt : Option String := none
  companionFirstWords : Option String := none
deriving DecidableEq

/-- The `validResponseTypes` list in `decideResponse`. -/
def validResponseTypes : List String :=
  ["exploration", "dialogue_attempt", "companion_dialogue",
   "companion_introduction", "examination"]

/-- `StoryWeaverService.fallbackDecision`: the deterministic heuristic used
when the generation backend fails, with the random voice draw injected. -/
def fallbackDecision (userInput : String) (gameState : GameState) (r : Nat) :
    StoryWeaverDecision :=
  let randomVoice := pickVoice r
  let input := jsToLower userInput
  if gameState.isCompanionPresent then
    { responseType := "companion_dialogue"
      reasoning := "Companion is present, defaulting to dialogue"
      shouldGenerateImage := false
      narratorVoice := randomVoice }
  else if jsIncludes input "hello" || jsIncludes input "hi" ||
      jsIncludes input "say" || jsIncludes input "talk" then
    { responseType := "dialogue_attempt"
      reasoning := "Player attempting dialogue with no one present"
      shouldGenerateImage := false
      narratorVoice := randomVoice
      responseText := some ("Your voice echoes through " ++
        jsOrStr gameState.currentScene "the mysterious space" ++
        ", but there\x27s no one here to answer. The silence that follows feels heavy with unspoken secrets.") }
  else if jsIncludes input "look" || jsIncludes input "examine" ||
      jsIncludes input "inspect" then
    { responseType := "examination"
      reasoning := "Player examining current scene"
      shouldGenerateImage := false
      narratorVoice := randomVoice
      responseText := some ("You take a closer look around " ++
        jsOrStr gameState.currentScene "your surroundings" ++
        ". The details become clearer, revealing subtle mysteries waiting to be uncovered.") }
  else
    { responseType := "exploration"
      reasoning := "Default to exploration for unknown input"
      shouldGenerateImage := true
      narratorVoice := randomVoice }

/-- Validation block of `decideResponse`: an unrecognized `responseType`
string is coerced to `exploration`. -/
def validateResponseType (d : StoryWeaverDecision) : StoryWeaverDecision :=
  if validResponseTypes.contains d.responseType then d
  else { d with responseType := "exploration" }

/-- Validation block of `decideResponse`: an unknown `narratorVoice` is
replaced by a random valid catalog name. -/
def validateVoice (r : Nat) (d : StoryWeaverDecision) : StoryWeaverDecision :=
  if VOICE_OPTION_NAMES.contains d.narratorVoice then d
  else { d with narratorVoice := pickVoice r }

/-- The block that re-derives `shouldGenerateImage` from `responseType`
(forced true for exploration and companion_introduction, forced false except
for examination, which keeps the model's choice). -/
def forceImageFlag (d : StoryWeaverDecision) : StoryWeaverDecision :=
  if d.responseType == "exploration" || d.responseType == "companion_introduction" then
    { d with shouldGenerateImage := true }
  else if d.responseType == "examination" then
    d
  else
    { d with shouldGenerateImage := false }

/-- The generic image prompt synthesized when an image is requested but no
prompt was supplied, keyed by the (validated) response type. -/
def fallbackImagePrompt (gameState : GameState) (responseType : String) : String :=
  if responseType == "exploration" then
    "A mysterious " ++ jsToLower gameState.genre ++
      " scene showing the area the player is exploring, atmospheric and detailed"
  else if responseType == "companion_introduction" then
    jsInterp gameState.companionDescription ++ " appearing in " ++
      gameState.currentScene ++ ", " ++ jsToLower gameState.genre ++ " style"
  else if responseType == "examination" then
    "Close-up view of what the player is examining in " ++
      gameState.currentScene ++ ", " ++ jsToLower gameState.genre ++
      " style, detailed and atmospheric"
  else
    ""

/-- The block ensuring `imagePrompt` is provided when an image should be
generated (only the three image-bearing types are given defaults). -/
def defaultImagePrompt (gameState : GameState) (d : StoryWeaverDecision) :
    StoryWeaverDecision :=
  if d.shouldGenerateImage && optFalsy d.imagePrompt then
    if d.responseType == "exploration" || d.responseType == "companion_introduction" ||
        d.responseType == "examination" then
      { d with imagePrompt := some (fallbackImagePrompt gameState d.responseType) }
    else d
  else d

/-- The block clearing `imagePrompt` when no image should be generated. -/
def clearImagePrompt (d : StoryWeaverDecision) : StoryWeaverDecision :=
  if !d.shouldGenerateImage then { d with imagePrompt := some "" } else d

/-- `StoryWeaverService.decideResponse`: `modelOutput = some parsed` is the
parsed JSON of a successful backend call, `none` a backend failure or
unparseable response (which falls back to the heuristic).  `r` injects the
random voice draw. -/
def decideResponse (userInput : String) (gameState : GameState)
    (modelOutput : Option StoryWeaverDecision) (r : Nat) : StoryWeaverDecision :=
  match modelOutput with
  | none => fallbackDecision userInput gameState r
  | some parsed =>
      clearImagePrompt (defaultImagePrompt gameState
        (forceImageFlag (validateVoice r (validateResponseType parsed))))

/-!
Conversation-manager state (`useConversationManager` in
`src/components/SceneDisplayPanel.tsx`).  Transient UI flags the claims never
mention (e.g. `isConnectingAudio`) are omitted; every field read or written by
the embedded operations is present.
-/

/-- The mutable refs of `useConversationManager` that the turn pipeline reads
or writes, together with the adventure-state fields `buildGameState` reads. -/
structure ConvState where
  chatHistory : List ChatMessage
  isCompanionPresent : Bool
  userResponseCount : Nat
  companionAppearanceThreshold : Nat
  worldSetting : String
  currentLocationDescription : String
  recentSceneElements : List String
  isListening : Bool
  isProcessing : Bool
  isSpeaking : Bool
  conversationMessage : String
  selectedGenre : String
  generatedCharacterName : Option String
  generatedCharacterDescription : Option String
deriving DecidableEq

/-- The data of a chat-log push site; the id is assigned by `pushMessage`. -/
structure MsgData where
  sender : Sender
  text : Option String
  imageUrl : Option String := none
  isNarrating : Option Bool := none
deriving DecidableEq

/-- `chatHistory.value.push({ id: chatHistory.value.length + 1, ... })`:
every push site in the conversation manager assigns the id this way. -/
def pushMessage (s : ConvState) (d : MsgData) : ConvState :=
  { s with chatHistory := s.chatHistory ++
      [{ id := s.chatHistory.length + 1, sender := d.sender, text := d.text,
         imageUrl := d.imageUrl, isNarrating := d.isNarrating }] }

/-- `buildGameState`: snapshot of the current state for the Story Weaver. -/
def buildGameState (s : ConvState) : GameState :=
  { genre := s.selectedGenre
    currentScene := jsOrStr s.currentLocationDescription "the beginning of your adventure"
    chatHistory := s.chatHistory.map (fun m => ⟨m.sender, m.text, m.imageUrl⟩)
    isCompanionPresent := s.isCompanionPresent
    companionName := s.generatedCharacterName
    companionDescription := s.generatedCharacterDescription
    worldSetting := jsOrStr s.worldSetting "an unknown realm"
    recentSceneElements := s.recentSceneElements }

/-- Result of `storyWeaver.generateCompanionIntroduction` (that service call
contains its own canned fallback, so all three fields are always present). -/
structure CompanionIntro where
  narrationText : String
  imagePrompt : String
  companionFirstWords : String
deriving DecidableEq

/-- Result of `storyWeaver.generateExplorationResponse` (`imagePrompt` is
optional; the service's internal fallback omits it). -/
structure ExplorationResponse where
  narrationText : String
  imagePrompt : Option String
deriving DecidableEq

/-- The external effects of one turn, injected as data: backend results
(`none` models the corresponding call failing and the `catch` running) and
the random voice draw. -/
structure TurnOracle where
  classifierOutput : Option StoryWeaverDecision
  voiceRand : Nat
  introResult : Option CompanionIntro
  introImage : Option String
  explorationResult : Option ExplorationResponse
  explorationImage : Option String
  dialogueResult : Option String
deriving DecidableEq

/-- `generateSceneImage`: returns `undefined` when no prompt is given,
otherwise the image backend's result (`none` on generation failure). -/
def generateSceneImage (imagePrompt : Option String) (result : Option String) :
    Option String :=
  if optFalsy imagePrompt then none else result

/-- `handleCompanionIntroduction`: sets `isCompanionPresent` first, then on
success appends the narrator introduction and the companion's first words; on
failure (`introResult = none`) appends the canned fallback message. -/
def handleCompanionIntroduction (s : ConvState) (decision : StoryWeaverDecision)
    (gameState : GameState) (o : TurnOracle) : ConvState :=
  let s1 := { s with isCompanionPresent := true,
                     conversationMessage := "Introducing companion..." }
  match o.introResult with
  | some intro =>
      let s2 := pushMessage s1
        { sender := .companion, text := some intro.narrationText,
          imageUrl := if decision.shouldGenerateImage then
              generateSceneImage (some intro.imagePrompt) o.introImage
            else none,
          isNarrating := some false }
      pushMessage s2 { sender := .companion, text := some intro.companionFirstWords }
  | none =>
      pushMessage s1
        { sender := .companion,
          text := some ("As you explore, you notice " ++
            jsInterp gameState.companionName ++
            " nearby. They seem to have been watching your journey.") }

/-- `handleExploration`: on success appends the narration message and replaces
`currentLocationDescription` with the new narration text; on failure appends
the canned fallback without touching the location. -/
def handleExploration (s : ConvState) (decision : StoryWeaverDecision)
    (userInput : String) (o : TurnOracle) : ConvState :=
  let s1 := { s with conversationMessage := "Generating new scene..." }
  match o.explorationResult with
  | some resp =>
      let s2 := pushMessage s1
        { sender := .companion, text := some resp.narrationText,
          imageUrl := if decision.shouldGenerateImage then
              generateSceneImage resp.imagePrompt o.explorationImage
            else none,
          isNarrating := some false }
      { s2 with currentLocationDescription := resp.narrationText }
  | none =>
      pushMessage s1
        { sender := .companion,
          text := some ("You " ++ jsToLower userInput ++
            ". The path leads you to a new area filled with mystery and possibility."),
          isNarrating := some false }

/-- `handleDialogueAttempt`: appends the narrator message carrying the
decision's `responseText`. -/
def handleDialogueAttempt (s : ConvState) (decision : StoryWeaverDecision) :
    ConvState :=
  pushMessage { s with conversationMessage := "Responding to your call..." }
    { sender := .companion, text := decision.responseText, isNarrating := some false }

/-- `handleExamination`: appends the narrator message carrying the decision's
`responseText`. -/
def handleExamination (s : ConvState) (decision : StoryWeaverDecision) :
    ConvState :=
  pushMessage { s with conversationMessage := "Looking closer..." }
    { sender := .companion, text := decision.responseText, isNarrating := some false }

/-- `handleCompanionDialogue`: on success appends the companion's reply and
runs TTS (the `finally` leaves `isSpeaking` false); on failure appends the
canned apology. -/
def handleCompanionDialogue (s : ConvState) (o : TurnOracle) : ConvState :=
  match o.dialogueResult with
  | some aiText =>
      let s1 := pushMessage s { sender := .companion, text := some aiText }
      { s1 with isSpeaking := false }
  | none =>
      pushMessage s
        { sender := .companion,
          text := some "I\x27m not sure how to respond to that right now." }

/-- `executeStoryWeaverDecision`: dispatch on the decision's `responseType`;
the default case of the `switch` falls back to `handleExploration`. -/
def executeStoryWeaverDecision (s : ConvState) (decision : StoryWeaverDecision)
    (userInput : String) (gameState : GameState) (o : TurnOracle) : ConvState :=
  if decision.responseType == "companion_introduction" then
    handleCompanionIntroduction s decision gameState o
  else if decision.responseType == "exploration" then
    handleExploration s decision userInput o
  else if decision.responseType == "dialogue_attempt" then
    handleDialogueAttempt s decision
  else if decision.responseType == "examination" then
    handleExamination s decision
  else if decision.responseType == "companion_dialogue" then
    handleCompanionDialogue s o
  else
    handleExploration s decision userInput o

/-- Opening of `processUserInput`: set the busy flag and increment the user
response counter. -/
def incrementTurn (s : ConvState) : ConvState :=
  { s with isProcessing := true,
           conversationMessage := "Story Weaver is thinking...",
           userResponseCount := s.userResponseCount + 1 }

/-- `shouldIntroduceCompanion`: the threshold test on the post-increment
counter with the companion still absent. -/
def shouldIntroduceCompanion (s1 : ConvState) : Bool :=
  !s1.isCompanionPresent &&
    decide (s1.userResponseCount ≥ s1.companionAppearanceThreshold)

/-- The caller-side override forcing a companion introduction when the
threshold is reached. -/
def overrideDecision (force : Bool) (d : StoryWeaverDecision) : StoryWeaverDecision :=
  if force && (d.responseType != "companion_introduction") then
    { d with responseType := "companion_introduction",
             reasoning := "Companion appearance threshold reached" }
  else d

/-- End of `processUserInput` (the `finally` block). -/
def finalizeTurn (s : ConvState) : ConvState :=
  { s with isProcessing := false, conversationMessage := "" }

/-- `processUserInput`: one resolved turn.  Returns the post-turn state and
the effective decision (`none` when the reentrancy guard returned early). -/
def processUserInput (s : ConvState) (userInput : String) (o : TurnOracle) :
    ConvState × Option StoryWeaverDecision :=
  if s.isProcessing || s.isSpeaking then (s, none)
  else
    let s1 := incrementTurn s
    let gameState := buildGameState s1
    let decision := overrideDecision (shouldIntroduceCompanion s1)
      (decideResponse userInput gameState o.classifierOutput o.voiceRand)
    let s2 := pushMessage s1 { sender := .user, text := some userInput }
    (finalizeTurn (executeStoryWeaverDecision s2 decision userInput gameState o),
     some decision)

/-- `stopListening`. -/
def stopListening (s : ConvState) : ConvState :=
  if s.isListening then
    { s with isListening := false, conversationMessage := "" }
  else s

/-- `handlePlayerStopClick`: stop listening when listening; otherwise, while
speaking, only the status message is cleared (the source leaves speech
interruption unimplemented). -/
def handlePlayerStopClick (s : ConvState) : ConvState :=
  if s.isListening then stopListening s
  else if s.isSpeaking then { s with conversationMessage := "" }
  else s

/-!
The scene-keyword machinery of `generateExplorationScene` (the component-local
initial-scene generator; its body holds the only write to
`recentSceneElements`).
-/

/-- The fixed place-noun vocabulary of the keyword regex in
`generateExplorationScene`. -/
def locationKeywordVocabulary : List String :=
  ["chamber", "room", "corridor", "passage", "library", "tunnel", "cave",
   "forest", "building", "tower", "basement", "attic", "garden", "courtyard",
   "bridge", "path", "road", "street", "alley", "plaza", "square", "market",
   "temple", "church", "castle", "fortress", "dungeon", "crypt", "tomb",
   "vault", "archive", "laboratory", "study", "office", "kitchen", "bedroom",
   "hall", "gallery", "balcony", "terrace", "roof", "cellar", "warehouse",
   "factory", "mill", "mine", "quarry", "pit", "well", "spring", "pond",
   "lake", "river", "stream", "creek", "waterfall", "cliff", "mountain",
   "hill", "valley", "plain", "desert", "swamp", "marsh", "bog", "meadow",
   "field", "grove", "thicket", "clearing", "ruins"]

/-- JS regex word characters (`\w`). -/
def isWordChar (c : Char) : Bool := c.isAlphanum || c == '_'

/-- Split a char list into its maximal `\w` runs, in order. -/
def wordRuns : List Char → List Char → List (List Char)
  | [], acc => if acc.isEmpty then [] else [acc.reverse]
  | c :: cs, acc =>
      if isWordChar c then wordRuns cs (c :: acc)
      else if acc.isEmpty then wordRuns cs []
      else acc.reverse :: wordRuns cs []

/-- `narrationText.toLowerCase().match(/\b(chamber|...|ruins)\b/g) || []`:
with every alternative a plain word, a match is exactly a maximal word run
equal to a vocabulary word, and matches are reported in text order. -/
def extractLocationKeywords (text : String) : List String :=
  ((wordRuns (jsToLower text).toList []).map (fun l => String.mk l)).filter
    (fun w => locationKeywordVocabulary.contains w)

/-- `recentSceneElements.value = [...new Set([...recentSceneElements.value,
...locationKeywords])].slice(-5)`. -/
def updateRecentSceneElements (current keywords : List String) : List String :=
  jsSliceLast5 (jsSetDedup (current ++ keywords))

/-- State effect of the success path of `generateExplorationScene`: replace
the location description and fold the text's place-noun keywords into
`recentSceneElements`. -/
def generateExplorationSceneUpdate (s : ConvState) (narrationText : String) :
    ConvState :=
  { s with currentLocationDescription := narrationText,
           recentSceneElements := updateRecentSceneElements
             s.recentSceneElements (extractLocationKeywords narrationText) }

/-- The session operations that can touch `recentSceneElements` or run a
turn: a resolved turn of `processUserInput`, or a run of
`generateExplorationScene`'s scene update. -/
inductive SessionOp where
  | turn (userInput : String) (o : TurnOracle)
  | sceneGen (narrationText : String)

/-- Run one session operation. -/
def runOp (s : ConvState) (op : SessionOp) : ConvState :=
  match op with
  | .turn input o => (processUserInput s input o).1
  | .sceneGen text => generateExplorationSceneUpdate s text

/-- Run a sequence of session operations. -/
def runOps (s : ConvState) (ops : List SessionOp) : ConvState :=
  ops.foldl runOp s

/-!
Invariants, concrete fixtures and formalized claim statements.
-/

/-- Well-formedness of the chat log: every id is bounded by its position
(the orchestration shell seeds the log with an id-0 initial scene message,
and every turn-loop push assigns `length + 1`), and ids strictly increase
in append order. -/
def chatIdsOk (l : List ChatMessage) : Prop :=
  (∀ (i : Nat) (h : i < l.length), (l.get ⟨i, h⟩).id ≤ i + 1) ∧
  (∀ (i j : Nat) (hi : i < l.length) (hj : j < l.length), i < j →
    (l.get ⟨i, hi⟩).id < (l.get ⟨j, hj⟩).id)

/-- A concrete game state with the companion absent. -/
def exampleGameState : GameState :=
  { genre := "Fantasy"
    currentScene := "a quiet clearing"
    chatHistory := []
    isCompanionPresent := false
    companionName := some "Mira"
    companionDescription := some "a cloaked wanderer"
    worldSetting := "an ancient realm"
    recentSceneElements := [] }

/-- A parsed classifier output with an unrecognized response type and an
unknown narrator voice. -/
def exampleParsedBogus : StoryWeaverDecision :=
  { responseType := "wander"
    reasoning := "free-form model output"
    shouldGenerateImage := false
    narratorVoice := "NoSuchVoice" }

/-- A parsed classifier output classifying an exploration move (with the
image flag left false by the model, to exercise the forced override). -/
def exampleParsedExploration : StoryWeaverDecision :=
  { responseType := "exploration"
    reasoning := "player moves onward"
    shouldGenerateImage := false
    narratorVoice := "Puck" }

/-- A concrete conversation-manager state at the start of a session. -/
def exampleConvState : ConvState :=
  { chatHistory := []
    isCompanionPresent := false
    userResponseCount := 0
    companionAppearanceThreshold := 1
    worldSetting := ""
    currentLocationDescription := ""
    recentSceneElements := []
    isListening := false
    isProcessing := false
    isSpeaking := false
    conversationMessage := ""
    selectedGenre := "Fantasy"
    generatedCharacterName := some "Mira"
    generatedCharacterDescription := some "a cloaked wanderer" }

/-- A concrete turn oracle where every backend call succeeds. -/
def exampleOracle : TurnOracle :=
  { classifierOutput := some exampleParsedExploration
    voiceRand := 0
    introResult := some ⟨"An ally steps out of the mist.", "an ally in the mist", "Well met."⟩
    introImage := some "intro-image"
    explorationResult := some ⟨"You enter a vast cave.", some "a vast cave"⟩
    explorationImage := some "cave-image"
    dialogueResult := some "Indeed we shall." }

/-- The example state while synthesized speech is playing. -/
def exampleSpeakingState : ConvState :=
  { exampleConvState with isSpeaking := true }

/-- The example state after the companion has appeared. -/
def examplePresentState : ConvState :=
  { exampleConvState with isCompanionPresent := true }

/-- The model-supplied image prompt underlying a classifier result (absent
when the backend failed). -/
def modelImagePrompt : Option StoryWeaverDecision → Option String
  | none => none
  | some parsed => parsed.imagePrompt

/-- Claim C6 as stated: every Decision returned by `decideResponse` has its
image prompt normalized — defaulted from the template when an image is
requested without a model-supplied prompt, and cleared to the empty string
when no image is requested. -/
def ClaimC6 : Prop :=
  ∀ (input : String) (gs : GameState) (res : Option StoryWeaverDecision) (r : Nat),
    ((decideResponse input gs res r).shouldGenerateImage = true →
      optFalsy (modelImagePrompt res) = true →
      (decideResponse input gs res r).imagePrompt =
        some (fallbackImagePrompt gs (decideResponse input gs res r).responseType)) ∧
    ((decideResponse input gs res r).shouldGenerateImage = false →
      (decideResponse input gs res r).imagePrompt = some "")

/-- Claim C7 as stated: after every exploration turn the scene description
equals the new narration text and the text's place-noun keywords are folded
into `recentSceneElements`. -/
def ClaimC7 : Prop :=
  ∀ (s : ConvState) (decision : StoryWeaverDecision) (userInput : String)
    (o : TurnOracle) (resp : ExplorationResponse),
    o.explorationResult = some resp →
    (handleExploration s decision userInput o).currentLocationDescription =
      resp.narrationText ∧
    (handleExploration s decision userInput o).recentSceneElements =
      updateRecentSceneElements s.recentSceneElements
        (extractLocationKeywords resp.narrationText)

/-- Claim C9 as stated: a stop click during speech clears the speaking flag
(halting playback) while leaving committed chat messages in place. -/
def ClaimC9 : Prop :=
  ∀ s : ConvState, s.isSpeaking = true →
    (handlePlayerStopClick s).isSpeaking = false ∧
    (handlePlayerStopClick s).chatHistory = s.chatHistory

/-!
Helper lemmas.
-/

lemma pickVoice_mem (r : Nat) : pickVoice r ∈ VOICE_OPTION_NAMES := by
  have hlen : VOICE_OPTION_NAMES.length = 30 := by decide
  have h : r % VOICE_OPTION_NAMES.length < VOICE_OPTION_NAMES.length := by
    rw [hlen]; exact Nat.mod_lt _ (by omega)
  rw [pickVoice, List.getD_eq_getElem?_getD, List.getElem?_eq_getElem h]
  exact List.getElem_mem h

lemma contains_iff_mem (l : List String) (a : String) :
    l.contains a = true ↔ a ∈ l := by
  simp [List.contains]

lemma validateResponseType_spec (d : StoryWeaverDecision) :
    (validateResponseType d).responseType ∈ validResponseTypes ∧
    (validateResponseType d).shouldGenerateImage = d.shouldGenerateImage ∧
    (validateResponseType d).imagePrompt = d.imagePrompt ∧
    (validateResponseType d).narratorVoice = d.narratorVoice ∧
    (d.responseType ∈ validResponseTypes → validateResponseType d = d) ∧
    (d.responseType ∉ validResponseTypes →
      (validateResponseType d).responseType = "exploration") := by
  unfold validateResponseType
  by_cases h : d.responseType ∈ validResponseTypes
  · rw [if_pos ((contains_iff_mem _ _).mpr h)]
    exact ⟨h, rfl, rfl, rfl, fun _ => rfl, fun hc => absurd h hc⟩
  · rw [if_neg (by simp [contains_iff_mem, h])]
    exact ⟨(by decide : ("exploration" : String) ∈ validResponseTypes), rfl, rfl, rfl,
      fun hc => absurd hc h, fun _ => rfl⟩

lemma validateVoice_spec (r : Nat) (d : StoryWeaverDecision) :
    (validateVoice r d).responseType = d.responseType ∧
    (validateVoice r d).shouldGenerateImage = d.shouldGenerateImage ∧
    (validateVoice r d).imagePrompt = d.imagePrompt ∧
    (validateVoice r d).narratorVoice ∈ VOICE_OPTION_NAMES := by
  unfold validateVoice
  by_cases h : d.narratorVoice ∈ VOICE_OPTION_NAMES
  · rw [if_pos ((contains_iff_mem _ _).mpr h)]
    exact ⟨rfl, rfl, rfl, h⟩
  · rw [if_neg (by simp [contains_iff_mem, h])]
    exact ⟨rfl, rfl, rfl, pickVoice_mem r⟩

lemma forceImageFlag_spec (d : StoryWeaverDecision) :
    (forceImageFlag d).responseType = d.responseType ∧
    (forceImageFlag d).imagePrompt = d.imagePrompt ∧
    (forceImageFlag d).narratorVoice = d.narratorVoice ∧
    (d.responseType = "exploration" ∨ d.responseType = "companion_introduction" →
      (forceImageFlag d).shouldGenerateImage = true) ∧
    (d.responseType ≠ "exploration" → d.responseType ≠ "companion_introduction" →
      d.responseType ≠ "examination" →
      (forceImageFlag d).shouldGenerateImage = false) ∧
    (d.responseType = "examination" →
      (forceImageFlag d).shouldGenerateImage = d.shouldGenerateImage) := by
  unfold forceImageFlag
  by_cases h1 : d.responseType = "exploration" ∨ d.responseType = "companion_introduction"
  · rw [if_pos (by rcases h1 with h | h <;> simp [h])]
    refine ⟨rfl, rfl, rfl, fun _ => rfl, fun ha hb _ => ?_, fun hx => ?_⟩
    · rcases h1 with h | h
      · exact absurd h ha
      · exact absurd h hb
    · rcases h1 with h | h <;> rw [hx] at h <;> simp at h
  · rw [if_neg (by simp only [Bool.or_eq_true, beq_iff_eq]; exact h1)]
    by_cases h2 : d.responseType = "examination"
    · rw [if_pos (by simp [h2])]
      exact ⟨rfl, rfl, rfl, fun hc => absurd hc h1, fun _ _ hc => absurd h2 hc,
        fun _ => rfl⟩
    · rw [if_neg (by simp [h2])]
      exact ⟨rfl, rfl, rfl, fun hc => absurd hc h1, fun _ _ _ => rfl,
        fun hc => absurd hc h2⟩

lemma defaultImagePrompt_spec (gs : GameState) (d : StoryWeaverDecision) :
    (defaultImagePrompt gs d).responseType = d.responseType ∧
    (defaultImagePrompt gs d).shouldGenerateImage = d.shouldGenerateImage ∧
    (defaultImagePrompt gs d).narratorVoice = d.narratorVoice ∧
    (d.shouldGenerateImage = true → optFalsy d.imagePrompt = true →
      (d.responseType = "exploration" ∨ d.responseType = "companion_introduction" ∨
        d.responseType = "examination") →
      (defaultImagePrompt gs d).imagePrompt =
        some (fallbackImagePrompt gs d.responseType)) ∧
    (optFalsy d.imagePrompt = false →
      (defaultImagePrompt gs d).imagePrompt = d.imagePrompt) := by
  unfold defaultImagePrompt
  by_cases h1 : d.shouldGenerateImage && optFalsy d.imagePrompt
  · rw [if_pos h1]
    by_cases h2 : d.responseType = "exploration" ∨
        d.responseType = "companion_introduction" ∨ d.responseType = "examination"
    · rw [if_pos (by rcases h2 with h | h | h <;> simp [h])]
      refine ⟨rfl, rfl, rfl, fun _ _ _ => rfl, fun hf => ?_⟩
      simp only [Bool.and_eq_true] at h1
      rw [h1.2] at hf; cases hf
    · rw [if_neg (by simp only [Bool.or_eq_true, beq_iff_eq]; tauto)]
      exact ⟨rfl, rfl, rfl, fun _ _ hc => absurd hc h2, fun _ => rfl⟩
  · rw [if_neg h1]
    refine ⟨rfl, rfl, rfl, fun hg hf _ => ?_, fun _ => rfl⟩
    rw [hg, hf] at h1; simp at h1

lemma clearImagePrompt_spec (d : StoryWeaverDecision) :
    (clearImagePrompt d).responseType = d.responseType ∧
    (clearImagePrompt d).shouldGenerateImage = d.shouldGenerateImage ∧
    (clearImagePrompt d).narratorVoice = d.narratorVoice ∧
    (d.shouldGenerateImage = false → (clearImagePrompt d).imagePrompt = some "") ∧
    (d.shouldGenerateImage = true → (clearImagePrompt d).imagePrompt = d.imagePrompt) := by
  unfold clearImagePrompt
  by_cases h : d.shouldGenerateImage
  · rw [if_neg (by simp [h])]
    refine ⟨rfl, rfl, rfl, fun hc => ?_, fun _ => rfl⟩
    rw [hc] at h; cases h
  · rw [if_pos (by simp_all)]
    refine ⟨rfl, rfl, rfl, fun _ => rfl, fun hc => ?_⟩
    simp only [Bool.not_eq_true] at h
    rw [hc] at h; cases h

lemma fallbackDecision_spec (input : String) (gs : GameState) (r : Nat) :
    (fallbackDecision input gs r).narratorVoice = pickVoice r ∧
    (fallbackDecision input gs r).responseType ∈ validResponseTypes ∧
    (fallbackDecision input gs r).imagePrompt = none ∧
    (fallbackDecision input gs r).shouldGenerateImage =
      ((fallbackDecision input gs r).responseType == "exploration") := by
  simp only [fallbackDecision]
  split_ifs
  · exact ⟨rfl, (by decide : ("companion_dialogue" : String) ∈ validResponseTypes), rfl, rfl⟩
  · exact ⟨rfl, (by decide : ("dialogue_attempt" : String) ∈ validResponseTypes), rfl, rfl⟩
  · exact ⟨rfl, (by decide : ("examination" : String) ∈ validResponseTypes), rfl, rfl⟩
  · exact ⟨rfl, (by decide : ("exploration" : String) ∈ validResponseTypes), rfl, rfl⟩

lemma decideResponse_some_facts (input : String) (gs : GameState)
    (parsed : StoryWeaverDecision) (r : Nat) :
    (decideResponse input gs (some parsed) r).responseType ∈ validResponseTypes ∧
    (decideResponse input gs (some parsed) r).narratorVoice ∈ VOICE_OPTION_NAMES ∧
    (parsed.responseType ∉ validResponseTypes →
      (decideResponse input gs (some parsed) r).responseType = "exploration") ∧
    ((decideResponse input gs (some parsed) r).responseType = "exploration" ∨
        (decideResponse input gs (some parsed) r).responseType = "companion_introduction" →
      (decideResponse input gs (some parsed) r).shouldGenerateImage = true) ∧
    ((decideResponse input gs (some parsed) r).responseType = "dialogue_attempt" ∨
        (decideResponse input gs (some parsed) r).responseType = "companion_dialogue" →
      (decideResponse input gs (some parsed) r).shouldGenerateImage = false) ∧
    (parsed.responseType = "examination" →
      (decideResponse input gs (some parsed) r).shouldGenerateImage =
        parsed.shouldGenerateImage) ∧
    ((decideResponse input gs (some parsed) r).shouldGenerateImage = true →
      optFalsy parsed.imagePrompt = true →
      (decideResponse input gs (some parsed) r).imagePrompt =
        some (fallbackImagePrompt gs
          (decideResponse input gs (some parsed) r).responseType)) ∧
    ((decideResponse input gs (some parsed) r).shouldGenerateImage = false →
      (decideResponse input gs (some parsed) r).imagePrompt = some "") := by
  obtain ⟨ra, rb, rc, rd, re, rf⟩ := validateResponseType_spec parsed
  obtain ⟨va, vb, vc, vd⟩ := validateVoice_spec r (validateResponseType parsed)
  obtain ⟨fa, fb, fc, fd, fe, ff⟩ :=
    forceImageFlag_spec (validateVoice r (validateResponseType parsed))
  obtain ⟨da, db, dc, dd, de⟩ :=
    defaultImagePrompt_spec gs
      (forceImageFlag (validateVoice r (validateResponseType parsed)))
  obtain ⟨ca, cb, cc, cd, ce⟩ :=
    clearImagePrompt_spec
      (defaultImagePrompt gs
        (forceImageFlag (validateVoice r (validateResponseType parsed))))
  have hd : decideResponse input gs (some parsed) r =
      clearImagePrompt (defaultImagePrompt gs
        (forceImageFlag (validateVoice r (validateResponseType parsed)))) := rfl
  have htype : (decideResponse input gs (some parsed) r).responseType =
      (validateVoice r (validateResponseType parsed)).responseType := by
    rw [hd, ca, da, fa]
  have hflag : (decideResponse input gs (some parsed) r).shouldGenerateImage =
      (forceImageFlag (validateVoice r (validateResponseType parsed))).shouldGenerateImage := by
    rw [hd, cb, db]
  refine ⟨?_, ?_, ?_, ?_, ?_, ?_, ?_, ?_⟩
  · rw [htype, va]; exact ra
  · rw [hd, cc, dc, fc]; exact vd
  · intro hbad
    rw [htype, va]; exact rf hbad
  · intro hor
    rw [htype] at hor
    rw [hflag]
    exact fd hor
  · intro hor
    rw [hflag]
    rcases hor with h | h <;> rw [htype] at h <;>
      exact fe (by rw [h]; decide) (by rw [h]; decide) (by rw [h]; decide)
  · intro hexam
    have hv1 : validateResponseType parsed = parsed := re (by rw [hexam]; decide)
    rw [hflag, ff (by rw [va, hv1]; exact hexam), vb, hv1]
  · intro hg hfalsy
    rw [hflag] at hg
    have hprompt : (forceImageFlag (validateVoice r
        (validateResponseType parsed))).imagePrompt = parsed.imagePrompt := by
      rw [fb, vc, rc]
    have hthree : (forceImageFlag (validateVoice r
          (validateResponseType parsed))).responseType = "exploration" ∨
        (forceImageFlag (validateVoice r
          (validateResponseType parsed))).responseType = "companion_introduction" ∨
        (forceImageFlag (validateVoice r
          (validateResponseType parsed))).responseType = "examination" := by
      rw [fa]
      by_cases h1 : (validateVoice r (validateResponseType parsed)).responseType =
        "exploration"
      · exact Or.inl h1
      by_cases h2 : (validateVoice r (validateResponseType parsed)).responseType =
        "companion_introduction"
      · exact Or.inr (Or.inl h2)
      by_cases h3 : (validateVoice r (validateResponseType parsed)).responseType =
        "examination"
      · exact Or.inr (Or.inr h3)
      · rw [fe h1 h2 h3] at hg; cases hg
    have hv4flag : (defaultImagePrompt gs (forceImageFlag (validateVoice r
        (validateResponseType parsed)))).shouldGenerateImage = true := by
      rw [db]; exact hg
    have hdp := dd hg (by rw [hprompt]; exact hfalsy) hthree
    rw [hd, ce hv4flag, hdp, ca, da]
  · intro hg
    rw [hflag] at hg
    have hv4flag : (defaultImagePrompt gs (forceImageFlag (validateVoice r
        (validateResponseType parsed)))).shouldGenerateImage = false := by
      rw [db]; exact hg
    rw [hd, cd hv4flag]

lemma pushMessage_chatHistory (s : ConvState) (d : MsgData) :
    (pushMessage s d).chatHistory = s.chatHistory ++
      [{ id := s.chatHistory.length + 1, sender := d.sender, text := d.text,
         imageUrl := d.imageUrl, isNarrating := d.isNarrating }] := rfl

lemma fallbackDecision_responseType_of_absent (input : String) (gs : GameState)
    (r : Nat) (h : gs.isCompanionPresent = false) :
    (fallbackDecision input gs r).responseType =
      (if jsIncludes (jsToLower input) "hello" || jsIncludes (jsToLower input) "hi" ||
          jsIncludes (jsToLower input) "say" || jsIncludes (jsToLower input) "talk" then
        "dialogue_attempt"
      else if jsIncludes (jsToLower input) "look" || jsIncludes (jsToLower input) "examine" ||
          jsIncludes (jsToLower input) "inspect" then
        "examination"
      else "exploration") := by
  simp only [fallbackDecision, h]
  split_ifs <;> simp_all

lemma fallbackDecision_of_present (input : String) (gs : GameState) (r : Nat)
    (h : gs.isCompanionPresent = true) :
    (fallbackDecision input gs r).responseType = "companion_dialogue" := by
  simp only [fallbackDecision, h]
  split_ifs <;> rfl

lemma handleCompanionIntroduction_present (s : ConvState)
    (d : StoryWeaverDecision) (gs : GameState) (o : TurnOracle) :
    (handleCompanionIntroduction s d gs o).isCompanionPresent = true := by
  unfold handleCompanionIntroduction
  cases o.introResult <;> rfl

lemma handleCompanionIntroduction_recent (s : ConvState)
    (d : StoryWeaverDecision) (gs : GameState) (o : TurnOracle) :
    (handleCompanionIntroduction s d gs o).recentSceneElements =
      s.recentSceneElements := by
  unfold handleCompanionIntroduction
  cases o.introResult <;> rfl

lemma handleExploration_present (s : ConvState) (d : StoryWeaverDecision)
    (input : String) (o : TurnOracle) :
    (handleExploration s d input o).isCompanionPresent = s.isCompanionPresent := by
  unfold handleExploration
  cases o.explorationResult <;> rfl

lemma handleExploration_recent (s : ConvState) (d : StoryWeaverDecision)
    (input : String) (o : TurnOracle) :
    (handleExploration s d input o).recentSceneElements = s.recentSceneElements := by
  unfold handleExploration
  cases o.explorationResult <;> rfl

lemma handleCompanionDialogue_present (s : ConvState) (o : TurnOracle) :
    (handleCompanionDialogue s o).isCompanionPresent = s.isCompanionPresent := by
  unfold handleCompanionDialogue
  cases o.dialogueResult <;> rfl

lemma handleCompanionDialogue_recent (s : ConvState) (o : TurnOracle) :
    (handleCompanionDialogue s o).recentSceneElements = s.recentSceneElements := by
  unfold handleCompanionDialogue
  cases o.dialogueResult <;> rfl

lemma executeStoryWeaverDecision_present (s : ConvState)
    (d : StoryWeaverDecision) (input : String) (gs : GameState) (o : TurnOracle)
    (h : s.isCompanionPresent = true) :
    (executeStoryWeaverDecision s d input gs o).isCompanionPresent = true := by
  unfold executeStoryWeaverDecision
  split_ifs <;>
    simp only [handleCompanionIntroduction_present, handleExploration_present,
      handleCompanionDialogue_present, handleDialogueAttempt, handleExamination,
      pushMessage, h]

lemma executeStoryWeaverDecision_recent (s : ConvState)
    (d : StoryWeaverDecision) (input : String) (gs : GameState) (o : TurnOracle) :
    (executeStoryWeaverDecision s d input gs o).recentSceneElements =
      s.recentSceneElements := by
  unfold executeStoryWeaverDecision
  split_ifs <;>
    simp only [handleCompanionIntroduction_recent, handleExploration_recent,
      handleCompanionDialogue_recent, handleDialogueAttempt, handleExamination,
      pushMessage]

lemma executeStoryWeaverDecision_intro (s : ConvState)
    (d : StoryWeaverDecision) (input : String) (gs : GameState) (o : TurnOracle)
    (h : d.responseType = "companion_introduction") :
    executeStoryWeaverDecision s d input gs o =
      handleCompanionIntroduction s d gs o := by
  unfold executeStoryWeaverDecision
  rw [if_pos (by simp [h])]

lemma processUserInput_recent (s : ConvState) (input : String) (o : TurnOracle) :
    (processUserInput s input o).1.recentSceneElements = s.recentSceneElements := by
  unfold processUserInput
  split_ifs
  · rfl
  · simp only [finalizeTurn, executeStoryWeaverDecision_recent, pushMessage,
      incrementTurn]

lemma processUserInput_present (s : ConvState) (input : String) (o : TurnOracle)
    (h : s.isCompanionPresent = true) :
    (processUserInput s input o).1.isCompanionPresent = true := by
  unfold processUserInput
  split_ifs
  · exact h
  · exact executeStoryWeaverDecision_present _ _ _ _ _ h

lemma get_append_into (l : List ChatMessage) (m : ChatMessage) (i : Nat)
    (h : i < l.length) (h2 : i < (l ++ [m]).length) :
    (l ++ [m]).get ⟨i, h2⟩ = l.get ⟨i, h⟩ := by
  rw [List.get_eq_getElem, List.get_eq_getElem]
  exact List.getElem_append_left h

lemma get_append_last (l : List ChatMessage) (m : ChatMessage)
    (h2 : l.length < (l ++ [m]).length) :
    (l ++ [m]).get ⟨l.length, h2⟩ = m := by
  rw [List.get_eq_getElem]
  rw [List.getElem_append_right (Nat.le_refl _)]
  simp

lemma chatIdsOk_nil : chatIdsOk [] := by
  constructor
  · intro i h
    simp at h
  · intro i j hi hj hij
    simp at hi

lemma chatIdsOk_append (l : List ChatMessage) (m : ChatMessage)
    (hm : m.id = l.length + 1) (h : chatIdsOk l) : chatIdsOk (l ++ [m]) := by
  obtain ⟨hb, ho⟩ := h
  have hlen : (l ++ [m]).length = l.length + 1 := by simp
  constructor
  · intro i hi
    rcases Nat.lt_succ_iff_lt_or_eq.mp (hlen ▸ hi) with h1 | h1
    · rw [get_append_into l m i h1 hi]
      exact hb i h1
    · subst h1
      rw [get_append_last l m hi, hm]
  · intro i j hi hj hij
    rcases Nat.lt_succ_iff_lt_or_eq.mp (hlen ▸ hj) with hj1 | hj1
    · have hi1 : i < l.length := lt_trans hij hj1
      rw [get_append_into l m i hi1 hi, get_append_into l m j hj1 hj]
      exact ho i j hi1 hj1 hij
    · subst hj1
      have hi1 : i < l.length := hij
      rw [get_append_into l m i hi1 hi, get_append_last l m hj, hm]
      have := hb i hi1
      omega

lemma chatIdsOk_push (s : ConvState) (d : MsgData) (h : chatIdsOk s.chatHistory) :
    chatIdsOk (pushMessage s d).chatHistory :=
  chatIdsOk_append s.chatHistory _ rfl h

lemma push_chat (s : ConvState) (d1 : MsgData) :
    ∃ rest, (pushMessage s d1).chatHistory = s.chatHistory ++ rest ∧
      rest ≠ [] ∧ (∀ m ∈ rest, s.chatHistory.length < m.id) ∧
      (chatIdsOk s.chatHistory → chatIdsOk (pushMessage s d1).chatHistory) := by
  refine ⟨[ChatMessage.mk (s.chatHistory.length + 1) d1.sender d1.text
      d1.imageUrl d1.isNarrating], rfl, by simp, ?_,
    fun h => chatIdsOk_push s d1 h⟩
  intro m hm
  rw [List.mem_singleton] at hm
  subst hm
  simp

lemma push_push_chat (s : ConvState) (d1 d2 : MsgData) :
    ∃ rest, (pushMessage (pushMessage s d1) d2).chatHistory = s.chatHistory ++ rest ∧
      rest ≠ [] ∧ (∀ m ∈ rest, s.chatHistory.length < m.id) ∧
      (chatIdsOk s.chatHistory →
        chatIdsOk (pushMessage (pushMessage s d1) d2).chatHistory) := by
  refine ⟨[ChatMessage.mk (s.chatHistory.length + 1) d1.sender d1.text
      d1.imageUrl d1.isNarrating,
    ChatMessage.mk (s.chatHistory.length + 1 + 1) d2.sender d2.text
      d2.imageUrl d2.isNarrating], ?_, by simp, ?_,
    fun h => chatIdsOk_push _ d2 (chatIdsOk_push s d1 h)⟩
  · simp [pushMessage]
  · intro m hm
    rw [List.mem_cons, List.mem_singleton] at hm
    rcases hm with hm | hm <;> subst hm
    · simp
    · show s.chatHistory.length < s.chatHistory.length + 1 + 1
      omega

lemma handleCompanionIntroduction_chat (s : ConvState) (d : StoryWeaverDecision)
    (gs : GameState) (o : TurnOracle) :
    ∃ rest, (handleCompanionIntroduction s d gs o).chatHistory =
        s.chatHistory ++ rest ∧
      rest ≠ [] ∧ (∀ m ∈ rest, s.chatHistory.length < m.id) ∧
      (chatIdsOk s.chatHistory →
        chatIdsOk (handleCompanionIntroduction s d gs o).chatHistory) := by
  unfold handleCompanionIntroduction
  cases o.introResult
  · exact push_chat _ _
  · exact push_push_chat _ _ _

lemma handleExploration_chat (s : ConvState) (d : StoryWeaverDecision)
    (input : String) (o : TurnOracle) :
    ∃ rest, (handleExploration s d input o).chatHistory = s.chatHistory ++ rest ∧
      rest ≠ [] ∧ (∀ m ∈ rest, s.chatHistory.length < m.id) ∧
      (chatIdsOk s.chatHistory →
        chatIdsOk (handleExploration s d input o).chatHistory) := by
  unfold handleExploration
  cases o.explorationResult
  · exact push_chat _ _
  · exact push_chat _ _

lemma handleDialogueAttempt_chat (s : ConvState) (d : StoryWeaverDecision) :
    ∃ rest, (handleDialogueAttempt s d).chatHistory = s.chatHistory ++ rest ∧
      rest ≠ [] ∧ (∀ m ∈ rest, s.chatHistory.length < m.id) ∧
      (chatIdsOk s.chatHistory →
        chatIdsOk (handleDialogueAttempt s d).chatHistory) :=
  push_chat _ _

lemma handleExamination_chat (s : ConvState) (d : StoryWeaverDecision) :
    ∃ rest, (handleExamination s d).chatHistory = s.chatHistory ++ rest ∧
      rest ≠ [] ∧ (∀ m ∈ rest, s.chatHistory.length < m.id) ∧
      (chatIdsOk s.chatHistory →
        chatIdsOk (handleExamination s d).chatHistory) :=
  push_chat _ _

lemma handleCompanionDialogue_chat (s : ConvState) (o : TurnOracle) :
    ∃ rest, (handleCompanionDialogue s o).chatHistory = s.chatHistory ++ rest ∧
      rest ≠ [] ∧ (∀ m ∈ rest, s.chatHistory.length < m.id) ∧
      (chatIdsOk s.chatHistory →
        chatIdsOk (handleCompanionDialogue s o).chatHistory) := by
  unfold handleCompanionDialogue
  cases o.dialogueResult
  · exact push_chat _ _
  · exact push_chat _ _

lemma executeStoryWeaverDecision_chat (s : ConvState) (d : StoryWeaverDecision)
    (input : String) (gs : GameState) (o : TurnOracle) :
    ∃ rest, (executeStoryWeaverDecision s d input gs o).chatHistory =
        s.chatHistory ++ rest ∧
      rest ≠ [] ∧ (∀ m ∈ rest, s.chatHistory.length < m.id) ∧
      (chatIdsOk s.chatHistory →
        chatIdsOk (executeStoryWeaverDecision s d input gs o).chatHistory) := by
  unfold executeStoryWeaverDecision
  split_ifs
  · exact handleCompanionIntroduction_chat s d gs o
  · exact handleExploration_chat s d input o
  · exact handleDialogueAttempt_chat s d
  · exact handleExamination_chat s d
  · exact handleCompanionDialogue_chat s o
  · exact handleExploration_chat s d input o

lemma fallbackDecision_flags (input : String) (gs : GameState) (r : Nat) :
    ((fallbackDecision input gs r).responseType = "exploration" ∨
        (fallbackDecision input gs r).responseType = "companion_introduction" →
      (fallbackDecision input gs r).shouldGenerateImage = true) ∧
    ((fallbackDecision input gs r).responseType = "dialogue_attempt" ∨
        (fallbackDecision input gs r).responseType = "companion_dialogue" →
      (fallbackDecision input gs r).shouldGenerateImage = false) := by
  simp only [fallbackDecision]
  split_ifs <;> constructor <;> intro hor <;> rcases hor with h | h <;> simp_all

lemma update_length_le (cur kws : List String) :
    (updateRecentSceneElements cur kws).length ≤ 5 := by
  unfold updateRecentSceneElements jsSliceLast5
  rw [List.length_drop]
  omega

lemma runOps_recent_bound (ops : List SessionOp) :
    ∀ s : ConvState, s.recentSceneElements.length ≤ 5 →
      (runOps s ops).recentSceneElements.length ≤ 5 := by
  induction ops with
  | nil => exact fun s h => h
  | cons op ops ih =>
    intro s h
    show (runOps (runOp s op) ops).recentSceneElements.length ≤ 5
    apply ih
    cases op with
    | turn input o =>
      show (processUserInput s input o).1.recentSceneElements.length ≤ 5
      rw [processUserInput_recent]
      exact h
    | sceneGen t => exact update_length_le _ _

lemma processUserInput_run (s : ConvState) (input : String) (o : TurnOracle)
    (hproc : s.isProcessing = false) (hspeak : s.isSpeaking = false) :
    processUserInput s input o =
      (finalizeTurn (executeStoryWeaverDecision
          (pushMessage (incrementTurn s) (MsgData.mk Sender.user (some input) none none))
          (overrideDecision (shouldIntroduceCompanion (incrementTurn s))
            (decideResponse input (buildGameState (incrementTurn s))
              o.classifierOutput o.voiceRand))
          input (buildGameState (incrementTurn s)) o),
       some (overrideDecision (shouldIntroduceCompanion (incrementTurn s))
          (decideResponse input (buildGameState (incrementTurn s))
            o.classifierOutput o.voiceRand))) := by
  unfold processUserInput
  rw [if_neg (by rw [hproc, hspeak]; simp)]

lemma overrideDecision_forced (dd : StoryWeaverDecision) :
    (overrideDecision true dd).responseType = "companion_introduction" := by
  unfold overrideDecision
  by_cases hdd : dd.responseType = "companion_introduction"
  · rw [if_neg (by simp [hdd])]
    exact hdd
  · rw [if_pos (by simp [hdd])]

lemma turn_chat_spec (s1 : ConvState) (dEff : StoryWeaverDecision)
    (input : String) (gsb : GameState) (o : TurnOracle)
    (hok : chatIdsOk s1.chatHistory) :
    ∃ u rest,
      (finalizeTurn (executeStoryWeaverDecision
          (pushMessage s1 (MsgData.mk Sender.user (some input) none none))
          dEff input gsb o)).chatHistory = s1.chatHistory ++ u :: rest ∧
      u.sender = Sender.user ∧
      u.id = s1.chatHistory.length + 1 ∧
      (∀ m ∈ rest, u.id < m.id) ∧
      chatIdsOk (finalizeTurn (executeStoryWeaverDecision
          (pushMessage s1 (MsgData.mk Sender.user (some input) none none))
          dEff input gsb o)).chatHistory ∧
      s1.chatHistory.length < (finalizeTurn (executeStoryWeaverDecision
          (pushMessage s1 (MsgData.mk Sender.user (some input) none none))
          dEff input gsb o)).chatHistory.length := by
  obtain ⟨rest2, he, _, hmem, hpre⟩ :=
    executeStoryWeaverDecision_chat
      (pushMessage s1 (MsgData.mk Sender.user (some input) none none))
      dEff input gsb o
  have hlen : (pushMessage s1
      (MsgData.mk Sender.user (some input) none none)).chatHistory.length =
      s1.chatHistory.length + 1 := by
    simp [pushMessage]
  refine ⟨ChatMessage.mk (s1.chatHistory.length + 1) Sender.user (some input)
    none none, rest2, ?_, rfl, rfl, ?_, ?_, ?_⟩
  · show (executeStoryWeaverDecision
        (pushMessage s1 (MsgData.mk Sender.user (some input) none none))
        dEff input gsb o).chatHistory = _
    rw [he, pushMessage_chatHistory, List.append_assoc]
    rfl
  · intro m hm
    have h2 := hmem m hm
    rw [hlen] at h2
    exact h2
  · exact hpre (chatIdsOk_push s1 _ hok)
  · show s1.chatHistory.length < (executeStoryWeaverDecision
        (pushMessage s1 (MsgData.mk Sender.user (some input) none none))
        dEff input gsb o).chatHistory.length
    rw [he, List.length_append, hlen]
    omega

/-!
Claim theorems.
-/

/-- C1: for every turn processed with the companion absent and the
post-increment user response counter at or past
`companionAppearanceThreshold`, the effective response type of the turn is
`companion_introduction` regardless of the classifier's output, and
`isCompanionPresent` is true immediately after the turn's branch executes. -/
theorem companion_threshold_override (s : ConvState) (input : String)
    (o : TurnOracle) (hproc : s.isProcessing = false)
    (hspeak : s.isSpeaking = false) (habsent : s.isCompanionPresent = false)
    (hthresh : s.companionAppearanceThreshold ≤ s.userResponseCount + 1) :
    ((processUserInput s input o).2).map StoryWeaverDecision.responseType =
      some "companion_introduction" ∧
    (processUserInput s input o).1.isCompanionPresent = true := by
  have hsi : shouldIntroduceCompanion (incrementTurn s) = true := by
    unfold shouldIntroduceCompanion incrementTurn
    simp only [Bool.and_eq_true, Bool.not_eq_true', decide_eq_true_eq]
    exact ⟨habsent, hthresh⟩
  rw [processUserInput_run s input o hproc hspeak]
  constructor
  · show (some (overrideDecision (shouldIntroduceCompanion (incrementTurn s))
        (decideResponse input (buildGameState (incrementTurn s))
          o.classifierOutput o.voiceRand))).map
        StoryWeaverDecision.responseType = some "companion_introduction"
    rw [hsi, Option.map_some']
    exact congrArg some (overrideDecision_forced _)
  · show (executeStoryWeaverDecision _
        (overrideDecision (shouldIntroduceCompanion (incrementTurn s))
          (decideResponse input (buildGameState (incrementTurn s))
            o.classifierOutput o.voiceRand)) input _ o).isCompanionPresent = true
    rw [executeStoryWeaverDecision_intro _ _ _ _ _
      (by rw [hsi]; exact overrideDecision_forced _)]
    exact handleCompanionIntroduction_present _ _ _ _

/-- Witness for C1: in the concrete initial state (threshold 1, counter 0)
the first turn forces the companion introduction and leaves the companion
present. -/
theorem companion_threshold_override_witness :
    exampleConvState.isProcessing = false ∧
    exampleConvState.isSpeaking = false ∧
    exampleConvState.isCompanionPresent = false ∧
    exampleConvState.companionAppearanceThreshold ≤
      exampleConvState.userResponseCount + 1 ∧
    (processUserInput exampleConvState "hello" exampleOracle).1.isCompanionPresent
      = true :=
  ⟨rfl, rfl, rfl, by decide,
    (companion_threshold_override exampleConvState "hello" exampleOracle
      rfl rfl rfl (by decide)).2⟩

/-- C2: every Decision returned by `decideResponse` (generation path and
heuristic fallback alike) has `shouldGenerateImage = true` when its response
type is exploration or companion_introduction, `shouldGenerateImage = false`
when it is dialogue_attempt or companion_dialogue, and only for examination
is the model's flag kept as-is. -/
theorem forced_image_flags (input : String) (gs : GameState)
    (res : Option StoryWeaverDecision) (r : Nat) :
    ((decideResponse input gs res r).responseType = "exploration" ∨
        (decideResponse input gs res r).responseType = "companion_introduction" →
      (decideResponse input gs res r).shouldGenerateImage = true) ∧
    ((decideResponse input gs res r).responseType = "dialogue_attempt" ∨
        (decideResponse input gs res r).responseType = "companion_dialogue" →
      (decideResponse input gs res r).shouldGenerateImage = false) ∧
    (∀ parsed, res = some parsed → parsed.responseType = "examination" →
      (decideResponse input gs res r).shouldGenerateImage =
        parsed.shouldGenerateImage) := by
  cases res with
  | none =>
    exact ⟨(fallbackDecision_flags input gs r).1,
      (fallbackDecision_flags input gs r).2, fun p hp => Option.noConfusion hp⟩
  | some parsed =>
    obtain ⟨_, _, _, h4, h5, h6, _, _⟩ := decideResponse_some_facts input gs parsed r
    refine ⟨h4, h5, fun p hp hexam => ?_⟩
    injection hp with hp
    subst hp
    exact h6 hexam

/-- Witness for C2: a model output typed exploration comes back with the
image flag forced on. -/
theorem forced_image_flags_witness :
    (decideResponse "go" exampleGameState (some exampleParsedExploration) 0).responseType
      = "exploration" ∧
    (decideResponse "go" exampleGameState (some exampleParsedExploration) 0).shouldGenerateImage
      = true :=
  ⟨by decide,
    (forced_image_flags "go" exampleGameState (some exampleParsedExploration) 0).1
      (Or.inl (by decide))⟩

/-- C3: with the companion absent, the heuristic fallback classifies
"hello" as dialogue_attempt, "look around" as examination and "run north"
as exploration with the image flag set; the chosen type and flag depend only
on the utterance and the companion-presence flag, not on the rest of the
state or the random voice draw. -/
theorem fallback_classifier_deterministic (gs gs2 : GameState) (r r2 : Nat)
    (input : String) (habsent : gs.isCompanionPresent = false)
    (hagree : gs.isCompanionPresent = gs2.isCompanionPresent) :
    (fallbackDecision "hello" gs r).responseType = "dialogue_attempt" ∧
    (fallbackDecision "look around" gs r).responseType = "examination" ∧
    (fallbackDecision "run north" gs r).responseType = "exploration" ∧
    (fallbackDecision "run north" gs r).shouldGenerateImage = true ∧
    (fallbackDecision input gs r).responseType =
      (fallbackDecision input gs2 r2).responseType ∧
    (fallbackDecision input gs r).shouldGenerateImage =
      (fallbackDecision input gs2 r2).shouldGenerateImage := by
  have habsent2 : gs2.isCompanionPresent = false := by
    rw [← hagree]; exact habsent
  have htype : (fallbackDecision input gs r).responseType =
      (fallbackDecision input gs2 r2).responseType := by
    rw [fallbackDecision_responseType_of_absent input gs r habsent,
      fallbackDecision_responseType_of_absent input gs2 r2 habsent2]
  refine ⟨?_, ?_, ?_, ?_, htype, ?_⟩
  · rw [fallbackDecision_responseType_of_absent "hello" gs r habsent]
    decide
  · rw [fallbackDecision_responseType_of_absent "look around" gs r habsent]
    decide
  · rw [fallbackDecision_responseType_of_absent "run north" gs r habsent]
    decide
  · obtain ⟨_, _, _, hflag⟩ := fallbackDecision_spec "run north" gs r
    rw [hflag, fallbackDecision_responseType_of_absent "run north" gs r habsent]
    decide
  · obtain ⟨_, _, _, hf1⟩ := fallbackDecision_spec input gs r
    obtain ⟨_, _, _, hf2⟩ := fallbackDecision_spec input gs2 r2
    rw [hf1, hf2, htype]

/-- Witness for C3: the concrete absent-companion state classifies "hello"
as a dialogue attempt. -/
theorem fallback_classifier_deterministic_witness :
    exampleGameState.isCompanionPresent = false ∧
    (fallbackDecision "hello" exampleGameState 0).responseType =
      "dialogue_attempt" :=
  ⟨rfl, (fallback_classifier_deterministic exampleGameState exampleGameState
    0 0 "x" rfl rfl).1⟩

/-- C4: a resolved turn appends the user message first with id
`length + 1`, every narrator/companion message of the same turn gets a
strictly larger id, id order keeps matching append order, and the chat log
only grows. -/
theorem chat_log_append_only (s : ConvState) (input : String) (o : TurnOracle)
    (hproc : s.isProcessing = false) (hspeak : s.isSpeaking = false)
    (hok : chatIdsOk s.chatHistory) :
    ∃ u rest,
      (processUserInput s input o).1.chatHistory = s.chatHistory ++ u :: rest ∧
      u.sender = Sender.user ∧
      u.id = s.chatHistory.length + 1 ∧
      (∀ m ∈ rest, u.id < m.id) ∧
      chatIdsOk (processUserInput s input o).1.chatHistory ∧
      s.chatHistory.length < (processUserInput s input o).1.chatHistory.length := by
  rw [processUserInput_run s input o hproc hspeak]
  exact turn_chat_spec (incrementTurn s) _ input _ o hok

/-- Witness for C4: the first resolved turn from the empty chat log. -/
theorem chat_log_append_only_witness :
    exampleConvState.isProcessing = false ∧
    exampleConvState.isSpeaking = false ∧
    ∃ u rest,
      (processUserInput exampleConvState "hello" exampleOracle).1.chatHistory =
        exampleConvState.chatHistory ++ u :: rest ∧
      u.sender = Sender.user ∧
      u.id = exampleConvState.chatHistory.length + 1 ∧
      (∀ m ∈ rest, u.id < m.id) ∧
      chatIdsOk (processUserInput exampleConvState "hello" exampleOracle).1.chatHistory ∧
      exampleConvState.chatHistory.length <
        (processUserInput exampleConvState "hello" exampleOracle).1.chatHistory.length :=
  ⟨rfl, rfl, chat_log_append_only exampleConvState "hello" exampleOracle
    rfl rfl chatIdsOk_nil⟩

/-- C5: every Decision leaving `decideResponse` carries a response type in
the five-value enum (an unrecognized model string is coerced to
exploration) and a narrator voice from the Voice Catalog (an unknown voice
is replaced by the random draw, under which every catalog entry is
reachable); this holds on the fallback path too. -/
theorem decision_validity (input : String) (gs : GameState)
    (res : Option StoryWeaverDecision) (r : Nat) :
    (decideResponse input gs res r).responseType ∈ validResponseTypes ∧
    (decideResponse input gs res r).narratorVoice ∈ VOICE_OPTION_NAMES ∧
    (∀ parsed, res = some parsed → parsed.responseType ∉ validResponseTypes →
      (decideResponse input gs res r).responseType = "exploration") ∧
    (∀ i, i < VOICE_OPTION_NAMES.length →
      pickVoice i = VOICE_OPTION_NAMES.getD i "") := by
  have hpick : ∀ i, i < VOICE_OPTION_NAMES.length →
      pickVoice i = VOICE_OPTION_NAMES.getD i "" := by
    intro i hi
    unfold pickVoice
    rw [Nat.mod_eq_of_lt hi]
  cases res with
  | none =>
    obtain ⟨hv, ht, _, _⟩ := fallbackDecision_spec input gs r
    refine ⟨ht, ?_, fun p hp => Option.noConfusion hp, hpick⟩
    show (fallbackDecision input gs r).narratorVoice ∈ VOICE_OPTION_NAMES
    rw [hv]
    exact pickVoice_mem r
  | some parsed =>
    obtain ⟨h1, h2, h3, _, _, _, _, _⟩ := decideResponse_some_facts input gs parsed r
    refine ⟨h1, h2, fun p hp hbad => ?_, hpick⟩
    injection hp with hp
    subst hp
    exact h3 hbad

/-- Witness for C5: an unrecognized response type string is coerced to
exploration. -/
theorem decision_validity_witness :
    exampleParsedBogus.responseType ∉ validResponseTypes ∧
    (decideResponse "x" exampleGameState (some exampleParsedBogus) 3).responseType
      = "exploration" :=
  ⟨by decide,
    (decision_validity "x" exampleGameState (some exampleParsedBogus) 3).2.2.1
      exampleParsedBogus rfl (by decide)⟩

/-- C6 counterexample: on the heuristic fallback path the normalization is
skipped — classifying "hello" after a backend failure yields
`shouldGenerateImage = false` with `imagePrompt` absent rather than the
empty string — so the claim as stated over every Decision of
`decideResponse` is false. -/
theorem image_prompt_normalization_counterexample : ¬ ClaimC6 := by
  intro h
  have h2 := (h "hello" exampleGameState none 0).2 (by decide)
  exact absurd h2 (by decide)

/-- C6 (amended): on the generation path of `decideResponse`, an image
request without a model-supplied prompt receives the generic fallback
prompt keyed by the response type, and a Decision without an image request
has its prompt cleared to the empty string; Decisions produced by the
fallback path carry no image prompt at all. -/
theorem image_prompt_normalization (input : String) (gs : GameState)
    (parsed : StoryWeaverDecision) (r : Nat) (input2 : String)
    (gs2 : GameState) (r2 : Nat) :
    ((decideResponse input gs (some parsed) r).shouldGenerateImage = true →
      optFalsy parsed.imagePrompt = true →
      (decideResponse input gs (some parsed) r).imagePrompt =
        some (fallbackImagePrompt gs
          (decideResponse input gs (some parsed) r).responseType)) ∧
    ((decideResponse input gs (some parsed) r).shouldGenerateImage = false →
      (decideResponse input gs (some parsed) r).imagePrompt = some "") ∧
    (fallbackDecision input2 gs2 r2).imagePrompt = none := by
  obtain ⟨_, _, _, _, _, _, h7, h8⟩ := decideResponse_some_facts input gs parsed r
  obtain ⟨_, _, hf, _⟩ := fallbackDecision_spec input2 gs2 r2
  exact ⟨h7, h8, hf⟩

/-- Witness for C6 (amended): a forced exploration image without a model
prompt receives the templated generic prompt. -/
theorem image_prompt_normalization_witness :
    (decideResponse "go" exampleGameState (some exampleParsedExploration) 0).shouldGenerateImage
      = true ∧
    optFalsy exampleParsedExploration.imagePrompt = true ∧
    (decideResponse "go" exampleGameState (some exampleParsedExploration) 0).imagePrompt =
      some (fallbackImagePrompt exampleGameState
        (decideResponse "go" exampleGameState (some exampleParsedExploration) 0).responseType) :=
  ⟨by decide, by decide,
    (image_prompt_normalization "go" exampleGameState exampleParsedExploration 0
      "x" exampleGameState 0).1 (by decide) (by decide)⟩

/-- C7 counterexample: a successful exploration turn whose narration
contains the place noun "cave" leaves `recentSceneElements` unchanged
(empty) instead of folding the keyword in, so the claim as stated is
false. -/
theorem exploration_keywords_counterexample : ¬ ClaimC7 := by
  intro h
  have h2 := (h exampleConvState exampleParsedExploration "go" exampleOracle
    (ExplorationResponse.mk "You enter a vast cave." (some "a vast cave")) rfl).2
  exact absurd h2 (by decide)

/-- C7 (amended): after a successful exploration turn the scene description
equals the new narration text, but the turn executor leaves
`recentSceneElements` untouched; the keyword folding (with its 5-token
window) exists only in the separate `generateExplorationScene` helper,
which the turn loop never invokes. -/
theorem exploration_turn_post_state (s : ConvState) (d : StoryWeaverDecision)
    (input : String) (o : TurnOracle) (resp : ExplorationResponse) (t : String)
    (hsucc : o.explorationResult = some resp) :
    (handleExploration s d input o).currentLocationDescription =
      resp.narrationText ∧
    (handleExploration s d input o).recentSceneElements =
      s.recentSceneElements ∧
    (generateExplorationSceneUpdate s t).currentLocationDescription = t ∧
    (generateExplorationSceneUpdate s t).recentSceneElements =
      updateRecentSceneElements s.recentSceneElements
        (extractLocationKeywords t) := by
  unfold handleExploration
  rw [hsucc]
  exact ⟨rfl, rfl, rfl, rfl⟩

/-- Witness for C7 (amended): the concrete successful exploration turn
replaces the scene description with the new narration. -/
theorem exploration_turn_post_state_witness :
    exampleOracle.explorationResult =
      some (ExplorationResponse.mk "You enter a vast cave." (some "a vast cave")) ∧
    (handleExploration exampleConvState exampleParsedExploration "go"
      exampleOracle).currentLocationDescription = "You enter a vast cave." :=
  ⟨rfl, (exploration_turn_post_state exampleConvState exampleParsedExploration
    "go" exampleOracle (ExplorationResponse.mk "You enter a vast cave."
      (some "a vast cave")) "t" rfl).1⟩

/-- C8: from any state within the bound (in particular the empty initial
list), any number of resolved turns and scene updates keeps
`recentSceneElements` at length at most 5, and the sole mutating operation
preserves the bound on any inputs. -/
theorem keyword_window_bound (ops : List SessionOp) (s : ConvState)
    (cur kws : List String) (h : s.recentSceneElements.length ≤ 5) :
    (runOps s ops).recentSceneElements.length ≤ 5 ∧
    (updateRecentSceneElements cur kws).length ≤ 5 :=
  ⟨runOps_recent_bound ops s h, update_length_le cur kws⟩

/-- Witness for C8: a concrete session of one scene update and one turn
stays within the 5-token window. -/
theorem keyword_window_bound_witness :
    exampleConvState.recentSceneElements.length ≤ 5 ∧
    (runOps exampleConvState [SessionOp.sceneGen "You enter a vast cave.",
      SessionOp.turn "go" exampleOracle]).recentSceneElements.length ≤ 5 :=
  ⟨by decide,
    (keyword_window_bound [SessionOp.sceneGen "You enter a vast cave.",
      SessionOp.turn "go" exampleOracle] exampleConvState [] [] (by decide)).1⟩

/-- C9 counterexample: clicking stop while speech is playing (and not
listening) leaves `isSpeaking` true — the handler only clears the status
message and performs no speech interruption — so the claim as stated is
false. -/
theorem stop_click_counterexample : ¬ ClaimC9 := by
  intro h
  have h2 := (h exampleSpeakingState rfl).1
  exact absurd h2 (by decide)

/-- C9 (amended): while speech is playing and the microphone is not
listening, the stop click only clears the status message: playback is not
interrupted, `isSpeaking` stays true, and the committed chat log is left in
place. -/
theorem stop_click_behavior (s : ConvState) (hl : s.isListening = false)
    (hs : s.isSpeaking = true) :
    handlePlayerStopClick s = { s with conversationMessage := "" } ∧
    (handlePlayerStopClick s).isSpeaking = true ∧
    (handlePlayerStopClick s).chatHistory = s.chatHistory ∧
    (handlePlayerStopClick s).conversationMessage = "" := by
  have he : handlePlayerStopClick s = { s with conversationMessage := "" } := by
    unfold handlePlayerStopClick
    rw [if_neg (by simp [hl]), if_pos hs]
  refine ⟨he, ?_, ?_, ?_⟩
  · rw [he]; exact hs
  · rw [he]
  · rw [he]

/-- Witness for C9 (amended): the concrete speaking state keeps its
speaking flag after a stop click. -/
theorem stop_click_behavior_witness :
    exampleSpeakingState.isListening = false ∧
    exampleSpeakingState.isSpeaking = true ∧
    (handlePlayerStopClick exampleSpeakingState).isSpeaking = true :=
  ⟨rfl, rfl, (stop_click_behavior exampleSpeakingState rfl rfl).2.1⟩

/-- C10: the companion-introduction branch leaves `isCompanionPresent` true
for every oracle outcome — including the failure path that appends only the
canned fallback message — and once the flag is true every later turn keeps
it true, so subsequent classification sees a present companion. -/
theorem companion_presence_after_introduction (s s2 : ConvState)
    (d : StoryWeaverDecision) (gs : GameState) (o o2 : TurnOracle)
    (input : String) (h : s2.isCompanionPresent = true) :
    (handleCompanionIntroduction s d gs o).isCompanionPresent = true ∧
    (processUserInput s2 input o2).1.isCompanionPresent = true :=
  ⟨handleCompanionIntroduction_present s d gs o,
    processUserInput_present s2 input o2 h⟩

/-- Witness for C10: the concrete introduction branch ends with the
companion present. -/
theorem companion_presence_after_introduction_witness :
    examplePresentState.isCompanionPresent = true ∧
    (handleCompanionIntroduction exampleConvState exampleParsedExploration
      exampleGameState exampleOracle).isCompanionPresent = true :=
  ⟨rfl, (companion_presence_after_introduction exampleConvState
    examplePresentState exampleParsedExploration exampleGameState
    exampleOracle exampleOracle "hi there" rfl).1⟩

end AICompanionRPG
